import Mathlib

/-!
# Verification of gpsstats (jawi/gpsstats)

Shallow embedding of the C sources of `gpsstats`, a daemon that bridges GPSD
fix/satellite telemetry to an MQTT broker.  The embedding covers:

* `include/timespec.h` — `TS_NORM`, `TS_SUB`, `TSTONS`;
* `src/main.c` — `run_state_t`, `gps_stats_changed`, `reconnect_mqtt`,
  the GPS branch of the main loop, `create_mqtt_payload`'s `BUFFER_ADD`
  discipline;
* `src/gpsd.c` — `gpsd_handle`, `gpsd_connect`, `gpsd_disconnect`, `gpsd_fd`,
  `create_event_payload`, `gpsd_read_data`, `gpsd_dump_stats`;
* `src/mqtt.c` — `mqtt_handle`, the public `mqtt_*` session operations.

Modelling conventions:

* C `double` values (signal strengths, `tdop`, averages, `TSTONS` results)
  are modelled as rationals `ℚ`; `time_t`, `int` and `long` as `Int`;
  `uint8_t` counters carry their mod-256 wrap explicitly.
* Calls into the external libraries (libgps, libmosquitto) are modelled by
  passing the status the library call would return as an explicit oracle
  argument, and recording the calls performed in a trace list, so that
  "no I/O on a NULL handle" is a statement about an empty trace.
* JSON payload rendering is modelled at the granularity of the emitted
  fields (one `JsonField` per `BUFFER_ADD` of a field); the byte-level
  `snprintf` bookkeeping of `BUFFER_ADD` is modelled separately as a fold
  over the formatted chunk lengths.
-/

namespace Gpsstats

/-! ## Errno and library status constants (Linux / mosquitto values) -/

def EINVAL : Int := 22
def EIO : Int := 5
def ENOMEM : Int := 12
def ENOTCONN : Int := 107
def ENOTRECOVERABLE : Int := 131

def MOSQ_ERR_SUCCESS : Int := 0
def MOSQ_ERR_NO_CONN : Int := 4
def MOSQ_ERR_CONN_REFUSED : Int := 5
def MOSQ_ERR_CONN_LOST : Int := 7
def MOSQ_ERR_TLS : Int := 8
def MOSQ_ERR_AUTH : Int := 11
def MOSQ_ERR_UNKNOWN : Int := 13

/-- `MODE_NO_FIX` from gps.h (`MODE_NOT_SEEN = 0`, `MODE_NO_FIX = 1`). -/
def MODE_NO_FIX : Int := 1

/-- `GNSSID_CNT` from gps.h / src/gpsd.c: number of constellation buckets. -/
def GNSSID_CNT : Nat := 8

/-! ## include/timespec.h -/

/-- `NS_IN_SEC` from include/timespec.h. -/
def NS_IN_SEC : Int := 1000000000

/-- A `struct timespec`: seconds and nanoseconds, both signed. -/
structure Timespec where
  tv_sec : Int
  tv_nsec : Int
deriving Repr, DecidableEq

/-- `TS_NORM` from include/timespec.h: one borrow/carry normalization pass. -/
def TS_NORM (ts : Timespec) : Timespec :=
  if 1 ≤ ts.tv_sec ∨ (ts.tv_sec = 0 ∧ 0 ≤ ts.tv_nsec) then
    -- result is positive
    if NS_IN_SEC ≤ ts.tv_nsec then
      -- borrow from tv_sec
      { tv_sec := ts.tv_sec + 1, tv_nsec := ts.tv_nsec - NS_IN_SEC }
    else if ts.tv_nsec < 0 then
      -- carry to tv_sec
      { tv_sec := ts.tv_sec - 1, tv_nsec := ts.tv_nsec + NS_IN_SEC }
    else ts
  else
    -- result is negative
    if ts.tv_nsec ≤ -NS_IN_SEC then
      -- carry to tv_sec
      { tv_sec := ts.tv_sec - 1, tv_nsec := ts.tv_nsec + NS_IN_SEC }
    else if 0 < ts.tv_nsec then
      -- borrow from tv_sec
      { tv_sec := ts.tv_sec + 1, tv_nsec := ts.tv_nsec - NS_IN_SEC }
    else ts

/-- `TS_SUB` from include/timespec.h: componentwise difference, then
`TS_NORM`. -/
def TS_SUB (ts1 ts2 : Timespec) : Timespec :=
  TS_NORM { tv_sec := ts1.tv_sec - ts2.tv_sec, tv_nsec := ts1.tv_nsec - ts2.tv_nsec }

/-- `TSTONS` from include/timespec.h: timespec to seconds (double modelled
as `ℚ`). -/
def TSTONS (ts : Timespec) : ℚ :=
  (ts.tv_sec : ℚ) + (ts.tv_nsec : ℚ) / 1000000000

/-! ## GPS data model (the fields of `struct gps_data_t` the program reads) -/

/-- One entry of `gps_data_t.skyview` (`struct satellite_t`): the fields
read by the program. -/
structure Satellite where
  used : Bool
  /-- signal strength `ss` (a C double). -/
  ss : ℚ
  svid : Nat
  gnssid : Nat
deriving Repr, DecidableEq

/-- The zero-initialized satellite entry. -/
def Satellite.zero : Satellite := { used := false, ss := 0, svid := 0, gnssid := 0 }

/-- `gps_data_t.fix` (`struct gps_fix_t`): the fields read by the program.
`time` is the GPSD API ≥ 9 `struct timespec` timestamp. -/
structure GpsFix where
  mode : Int
  time : Timespec
  qErr : Int
deriving Repr, DecidableEq

/-- `gps_data_t.osc` (`struct oscillator_t`): the fields read by
`create_event_payload`. -/
structure Oscillator where
  running : Bool
  reference : Bool
  disciplined : Bool
  delta : Int
deriving Repr, DecidableEq

/-- The `gps_data_t.set` flag mask, as individual booleans for the flags the
program tests. -/
structure GpsSetFlags where
  versionSet : Bool
  errorSet : Bool
  packetSet : Bool
  toffSet : Bool
  ppsSet : Bool
deriving Repr, DecidableEq

def GpsSetFlags.zero : GpsSetFlags :=
  { versionSet := false, errorSet := false, packetSet := false,
    toffSet := false, ppsSet := false }

/-- The decoded GPSD data (`struct gps_data_t`): the fields the program
reads.  `skyview` is the fixed-size C array, modelled as a total function
from index to entry (reads beyond the populated prefix see whatever the
array holds there). -/
structure GpsData where
  set : GpsSetFlags
  fix : GpsFix
  satellites_used : Int
  satellites_visible : Int
  /-- `dop.tdop` (a C double). -/
  tdop : ℚ
  skyview : Nat → Satellite
  /-- `toff.clock` -/
  toff_clock : Timespec
  /-- `toff.real` -/
  toff_real : Timespec
  /-- `pps.clock` -/
  pps_clock : Timespec
  /-- `pps.real` -/
  pps_real : Timespec
  /-- top-level `qErr` (GPSD API ≥ 9). -/
  qErr : Int
  osc : Oscillator

/-- The list of skyview indices the satellite loops read: the loops run
`for (int i = 0; i <= satellites_visible; i++)`, so they touch indices
`0 .. satellites_visible` inclusive (and none when `satellites_visible`
is negative). -/
def skyviewIndicesRead (satellites_visible : Int) : List Nat :=
  if satellites_visible < 0 then [] else List.range (satellites_visible.toNat + 1)

/-- Increment a `uint8_t` counter in a seen-histogram (C array of
`uint8_t[GNSSID_CNT]`), with the mod-256 wrap of `uint8_t`. -/
def bumpSeen (l : List Nat) (g : Nat) : List Nat :=
  l.set g ((l.getD g 0 + 1) % 256)

/-- The all-zero seen-histogram `uint8_t sats_seen[GNSSID_CNT] = { 0 }`. -/
def zeroSeen : List Nat := List.replicate GNSSID_CNT 0

/-! ## src/main.c: `run_state_t`, `gps_stats_changed`, `reconnect_mqtt` -/

/-- `run_state_t` from src/main.c (the fields that carry program state;
the `config`, `mosq` and `loop` plumbing fields are omitted). -/
structure RunState where
  reconnect_mosq : Bool
  next_reconnect_attempt : Int
  next_delay_value : Nat
  time : Timespec
  sats_visible : Int
  sats_used : Int
  qErr : Int
  tdop : ℚ
  avg_snr : ℚ
  toff_diff : Timespec
  pps_diff : Timespec
  sats_seen : List Nat
deriving Repr, DecidableEq

/-- `static run_state_t run_state = { 0 };` — the zero-initialized state. -/
def initRunState : RunState :=
  { reconnect_mosq := false, next_reconnect_attempt := 0, next_delay_value := 0,
    time := ⟨0, 0⟩, sats_visible := 0, sats_used := 0, qErr := 0,
    tdop := 0, avg_snr := 0, toff_diff := ⟨0, 0⟩, pps_diff := ⟨0, 0⟩,
    sats_seen := zeroSeen }

/-- The loop body of `gps_stats_changed` (src/main.c): accumulate
`snr_total` (signal strengths of used satellites with `ss > 1`) and the
seen-histogram (used satellites with `svid != 0` and `gnssid < GNSSID_CNT`). -/
def detectorScanStep (data : GpsData) (acc : ℚ × List Nat) (i : Nat) : ℚ × List Nat :=
  let s := data.skyview i
  if !s.used then acc
  else
    let snr_total := if s.ss > 1 then acc.1 + s.ss else acc.1
    let seen := if s.svid ≠ 0 ∧ s.gnssid < GNSSID_CNT then bumpSeen acc.2 s.gnssid else acc.2
    (snr_total, seen)

/-- The satellite loop of `gps_stats_changed` (src/main.c, lines 73–88). -/
def detectorScan (data : GpsData) : ℚ × List Nat :=
  (skyviewIndicesRead data.satellites_visible).foldl (detectorScanStep data) (0, zeroSeen)

/-- The seen-histogram `gps_stats_changed` computes for a fix. -/
def detectorSeenHist (data : GpsData) : List Nat := (detectorScan data).2

/-- The average SNR `gps_stats_changed` computes for a fix:
`snr_total / satellites_used` when `satellites_used > 0`, else `0`. -/
def detector_snr_avg (data : GpsData) : ℚ :=
  if data.satellites_used > 0 then (detectorScan data).1 / (data.satellites_used : ℚ) else 0

/-- `gps_stats_changed` from src/main.c: returns `false` and leaves the
snapshot alone when all five compared quantities are equal; otherwise
updates the snapshot (including fix time and `qErr`) and returns `true`. -/
def gps_stats_changed (st : RunState) (data : GpsData) : Bool × RunState :=
  let snr_avg := detector_snr_avg data
  let sats_seen := detectorSeenHist data
  if st.sats_used = data.satellites_used ∧
     st.sats_visible = data.satellites_visible ∧
     st.tdop = data.tdop ∧
     st.avg_snr = snr_avg ∧
     st.sats_seen = sats_seen then
    (false, st)
  else
    (true, { st with
               time := data.fix.time,
               qErr := data.fix.qErr,
               sats_used := data.satellites_used,
               sats_visible := data.satellites_visible,
               tdop := data.tdop,
               avg_snr := snr_avg,
               sats_seen := sats_seen })

/-- `MAX_RECONNECT_DELAY_VALUE` from src/main.c. -/
def MAX_RECONNECT_DELAY_VALUE : Nat := 32

/-- The delay update of `reconnect_mqtt` (src/main.c, lines 227–229):
`if (next_delay_value < MAX) next_delay_value <<= 1;` on a `uint32_t`. -/
def nextDelayUpdate (v : Nat) : Nat :=
  if v < MAX_RECONNECT_DELAY_VALUE then (v <<< 1) % 2 ^ 32 else v

/-- `reconnect_mqtt` from src/main.c.  `now` is `time(NULL)`;
`reconnectStatus` is the status `mosquitto_reconnect` would return
(0 = `MOSQ_ERR_SUCCESS`).  Returns the function's return value and the
updated state. -/
def reconnect_mqtt (st : RunState) (now : Int) (reconnectStatus : Int) : Int × RunState :=
  if st.reconnect_mosq ∧ st.next_reconnect_attempt ≥ now then
    (1, st)
  else if reconnectStatus ≠ MOSQ_ERR_SUCCESS then
    (-1, { st with
             reconnect_mosq := true,
             next_reconnect_attempt := now + (st.next_delay_value : Int),
             next_delay_value := nextDelayUpdate st.next_delay_value })
  else
    (0, { st with
            reconnect_mosq := false,
            next_reconnect_attempt := -1,
            next_delay_value := 1 })

/-! ## JSON payload rendering, at field granularity

Each constructor stands for one field written by a `BUFFER_ADD` of
`create_mqtt_payload` (src/main.c) or `create_event_payload` (src/gpsd.c),
carrying the rendered value. -/

inductive JsonField where
  | time (t : Timespec)
  | sats_used (n : Int)
  | sats_visible (n : Int)
  | tdop (v : ℚ)
  | avg_snr (v : ℚ)
  | qErr (v : Int)
  | toff (v : ℚ)
  | pps (v : ℚ)
  | osc_pps (b : Bool)
  | osc_gps (b : Bool)
  | osc_delta (v : Int)
  | sats (gnssid : Nat) (count : Nat)
deriving Repr, DecidableEq

/-- The `sats.<constellation-name>` section: one field per index
`0 ≤ i < GNSSID_CNT` whose seen-count is positive (the loop at
src/main.c lines 148–153 and src/gpsd.c lines 252–257). -/
def satsFields (seen : List Nat) : List JsonField :=
  (List.range GNSSID_CNT).filterMap fun i =>
    if seen.getD i 0 > 0 then some (JsonField.sats i (seen.getD i 0)) else none

/-- `create_mqtt_payload` from src/main.c, at field granularity: the
sequence of JSON fields rendered from the stored snapshot. -/
def create_mqtt_payload (st : RunState) : List JsonField :=
  [JsonField.time st.time, JsonField.sats_used st.sats_used,
   JsonField.sats_visible st.sats_visible, JsonField.tdop st.tdop,
   JsonField.avg_snr st.avg_snr]
  ++ (if st.qErr ≠ 0 then [JsonField.qErr st.qErr] else [])
  ++ [JsonField.toff (TSTONS st.toff_diff), JsonField.pps (TSTONS st.pps_diff)]
  ++ satsFields st.sats_seen

/-- The GPS branch of the main loop of src/main.c (lines 396–419), entered
after a successful `gps_read`: on `ERROR_SET` the iteration is abandoned;
otherwise the `toff`/`pps` deltas are updated when their flags are present,
and only then is the fix-validity test (`mode > MODE_NO_FIX` and
`satellites_used > 0`) combined with `gps_stats_changed` to decide whether
a payload is built and published.  Returns the updated state and the
emitted payload, if any. -/
def process_gps_data (st : RunState) (data : GpsData) : RunState × Option (List JsonField) :=
  if data.set.errorSet then (st, none)
  else
    let st1 := if data.set.toffSet then
                 { st with toff_diff := TS_SUB data.toff_clock data.toff_real } else st
    let st2 := if data.set.ppsSet then
                 { st1 with pps_diff := TS_SUB data.pps_clock data.pps_real } else st1
    if data.fix.mode > MODE_NO_FIX ∧ data.satellites_used > 0 then
      let r := gps_stats_changed st2 data
      if r.1 then (r.2, some (create_mqtt_payload r.2)) else (r.2, none)
    else (st2, none)

/-! ## src/gpsd.c: handle, payload creation, session operations -/

/-- `struct gpsd_handle` from src/gpsd.c (the `host`/`port`/`device`
configuration strings are omitted; `gps_fd` is the descriptor inside the
embedded `struct gps_data_t`). -/
structure GpsdHandle where
  gpsd : GpsData
  gps_fd : Int
  toff_diff : Timespec
  pps_diff : Timespec
  gpsd_events_recv : Nat
  gpsd_events_send : Nat
  gpsd_last_event : Int

/-- The satellite loop body of `create_event_payload` (src/gpsd.c): like
the detector's but with the `ss >= 0` signal-strength test and the
GPSD API ≥ 8 constellation branch (`svid != 0`, `gnssid < GNSSID_CNT`). -/
def payloadScanStep (data : GpsData) (acc : ℚ × List Nat) (i : Nat) : ℚ × List Nat :=
  let s := data.skyview i
  if !s.used then acc
  else
    let snr_total := if s.ss ≥ 0 then acc.1 + s.ss else acc.1
    let seen := if s.svid ≠ 0 ∧ s.gnssid < GNSSID_CNT then bumpSeen acc.2 s.gnssid else acc.2
    (snr_total, seen)

/-- The satellite loop of `create_event_payload` (src/gpsd.c, lines 167–200). -/
def payloadScan (data : GpsData) : ℚ × List Nat :=
  (skyviewIndicesRead data.satellites_visible).foldl (payloadScanStep data) (0, zeroSeen)

/-- The seen-histogram `create_event_payload` computes. -/
def payloadSeenHist (data : GpsData) : List Nat := (payloadScan data).2

/-- The average SNR `create_event_payload` computes:
`snr_total / satellites_used` when `satellites_used > 0`, else `0`. -/
def payload_snr_avg (data : GpsData) : ℚ :=
  if data.satellites_used > 0 then (payloadScan data).1 / (data.satellites_used : ℚ) else 0

/-- `create_event_payload` from src/gpsd.c (GPSD API ≥ 9 branches), at
field granularity: the sequence of JSON fields rendered for the handle's
current `gpsd` data. -/
def create_event_payload (h : GpsdHandle) : List JsonField :=
  [JsonField.time h.gpsd.fix.time, JsonField.sats_used h.gpsd.satellites_used,
   JsonField.sats_visible h.gpsd.satellites_visible, JsonField.tdop h.gpsd.tdop,
   JsonField.avg_snr (payload_snr_avg h.gpsd)]
  ++ (if h.gpsd.qErr ≠ 0 then [JsonField.qErr h.gpsd.qErr] else [])
  ++ [JsonField.toff (TSTONS h.toff_diff), JsonField.pps (TSTONS h.pps_diff)]
  ++ (if h.gpsd.osc.running then
        [JsonField.osc_pps h.gpsd.osc.reference,
         JsonField.osc_gps h.gpsd.osc.disciplined,
         JsonField.osc_delta h.gpsd.osc.delta]
      else [])
  ++ satsFields (payloadSeenHist h.gpsd)

/-- The calls into the external libraries (libgps, libmosquitto) a session
operation performs; used to state that a NULL handle causes no I/O. -/
inductive LibCall where
  | gpsOpen
  | gpsStream
  | gpsClose
  | gpsRead
  | mosqConnect
  | mosqDisconnect
  | mosqLoopRead
  | mosqLoopWrite
  | mosqLoopMisc
  | mosqSocket
  | mosqPublish
deriving Repr, DecidableEq

/-- `gpsd_connect` from src/gpsd.c.  `openStatus` and `streamStatus` are
the statuses `gps_open` and `gps_stream` would return.  (The library's
in-place initialization of `handle->gpsd` is not modelled; it only becomes
observable through later reads.)  Returns (return value, handle, library
calls performed). -/
def gpsd_connect (h : Option GpsdHandle) (openStatus streamStatus : Int) :
    Int × Option GpsdHandle × List LibCall :=
  match h with
  | none => (-EINVAL, none, [])
  | some h0 =>
    if openStatus < 0 then (-ENOTCONN, some h0, [LibCall.gpsOpen])
    else if streamStatus < 0 then (-ENOTCONN, some h0, [LibCall.gpsOpen, LibCall.gpsStream])
    else (0, some h0, [LibCall.gpsOpen, LibCall.gpsStream])

/-- `gpsd_disconnect` from src/gpsd.c: nothing to do when the descriptor is
already gone; otherwise best-effort stream-disable and close (failures
logged only, return is always 0). -/
def gpsd_disconnect (h : Option GpsdHandle) : Int × Option GpsdHandle × List LibCall :=
  match h with
  | none => (-EINVAL, none, [])
  | some h0 =>
    if h0.gps_fd < 0 then (0, some h0, [])
    else (0, some h0, [LibCall.gpsStream, LibCall.gpsClose])

/-- `gpsd_fd` from src/gpsd.c. -/
def gpsd_fd (h : Option GpsdHandle) : Int × Option GpsdHandle × List LibCall :=
  match h with
  | none => (-EINVAL, none, [])
  | some h0 => (h0.gps_fd, some h0, [])

/-- `gpsd_read_data` from src/gpsd.c (GPSD API ≥ 9 branches).
`readStatus` is the status `gps_read` would return and `newData` the data
it would decode into `handle->gpsd` (used only when `readStatus > 0`);
`now` is `time(NULL)`.  Returns (return value, event payload if one was
produced, handle, library calls performed).  In the payload-producing case
the C function returns the rendered byte count; here the field count of
the rendered payload stands in for it (both are positive). -/
def gpsd_read_data (h : Option GpsdHandle) (readStatus : Int) (newData : GpsData) (now : Int) :
    Int × Option (List JsonField) × Option GpsdHandle × List LibCall :=
  match h with
  | none => (-EINVAL, none, none, [])
  | some h0 =>
    if readStatus < 0 then (-ENOTCONN, none, some h0, [LibCall.gpsRead])
    else if readStatus = 0 then (0, none, some h0, [LibCall.gpsRead])
    else
      let h1 := { h0 with gpsd := newData }
      if newData.set.errorSet then (- EIO, none, some h1, [LibCall.gpsRead])
      else
        let h2 := { h1 with gpsd_events_recv := h1.gpsd_events_recv + 1,
                            gpsd_last_event := now }
        if ¬ newData.set.packetSet then (0, none, some h2, [LibCall.gpsRead])
        else
          let h3 := { h2 with toff_diff := TS_SUB newData.toff_clock newData.toff_real,
                              pps_diff := TS_SUB newData.pps_clock newData.pps_real }
          let h4 := { h3 with gpsd := { newData with set := GpsSetFlags.zero } }
          if newData.fix.mode > MODE_NO_FIX ∧ newData.satellites_used > 0 then
            let h5 := { h4 with gpsd_events_send := h4.gpsd_events_send + 1 }
            let payload := create_event_payload h5
            ((payload.length : Int), some payload, some h5, [LibCall.gpsRead])
          else (0, none, some h4, [LibCall.gpsRead])

/-- `gpsd_stats_t` from include/gpsd.h. -/
structure GpsdStats where
  events_recv : Nat
  events_send : Nat
  last_event : Int
deriving Repr, DecidableEq

/-- `gpsd_dump_stats` from src/gpsd.c: an all-zero snapshot for a NULL
handle, otherwise the handle's counters. -/
def gpsd_dump_stats (h : Option GpsdHandle) : GpsdStats :=
  match h with
  | none => { events_recv := 0, events_send := 0, last_event := 0 }
  | some h0 => { events_recv := h0.gpsd_events_recv,
                 events_send := h0.gpsd_events_send,
                 last_event := h0.gpsd_last_event }

/-! ## src/mqtt.c: handle and session operations -/

/-- `struct mqtt_handle` from src/mqtt.c (the `host` string is omitted;
`mosqPresent` models whether the `mosq` pointer is non-NULL). -/
structure MqttHandle where
  mosqPresent : Bool
  port : Int
  retain : Bool
  qos : Int
  mqtt_events_send : Nat
  mqtt_last_event : Int
deriving Repr, DecidableEq

/-- `mqtt_needs_to_reconnect` from src/mqtt.c. -/
def mqtt_needs_to_reconnect (status : Int) : Bool :=
  status = MOSQ_ERR_NO_CONN ∨ status = MOSQ_ERR_CONN_REFUSED ∨
  status = MOSQ_ERR_CONN_LOST ∨ status = MOSQ_ERR_TLS ∨
  status = MOSQ_ERR_AUTH ∨ status = MOSQ_ERR_UNKNOWN

/-- `mqtt_connect` from src/mqtt.c; `status` is what `mosquitto_connect`
would return. -/
def mqtt_connect (h : Option MqttHandle) (status : Int) :
    Int × Option MqttHandle × List LibCall :=
  match h with
  | none => (-EINVAL, none, [])
  | some h0 =>
    if status ≠ MOSQ_ERR_SUCCESS then (-ENOTCONN, some h0, [LibCall.mosqConnect])
    else (0, some h0, [LibCall.mosqConnect])

/-- `mqtt_disconnect` from src/mqtt.c; `status` is what
`mosquitto_disconnect` would return. -/
def mqtt_disconnect (h : Option MqttHandle) (status : Int) :
    Int × Option MqttHandle × List LibCall :=
  match h with
  | none => (-EINVAL, none, [])
  | some h0 =>
    if ¬ h0.mosqPresent then (0, some h0, [])
    else if status ≠ MOSQ_ERR_SUCCESS ∧ status ≠ MOSQ_ERR_NO_CONN then
      (-ENOTCONN, some h0, [LibCall.mosqDisconnect])
    else (0, some h0, [LibCall.mosqDisconnect])

/-- `mqtt_read_data` from src/mqtt.c; `status` is what
`mosquitto_loop_read` would return. -/
def mqtt_read_data (h : Option MqttHandle) (status : Int) :
    Int × Option MqttHandle × List LibCall :=
  match h with
  | none => (-EINVAL, none, [])
  | some h0 =>
    if status ≠ MOSQ_ERR_SUCCESS then
      (if mqtt_needs_to_reconnect status then -ENOTCONN else -ENOTRECOVERABLE,
       some h0, [LibCall.mosqLoopRead])
    else (0, some h0, [LibCall.mosqLoopRead])

/-- `mqtt_write_data` from src/mqtt.c; `status` is what
`mosquitto_loop_write` would return. -/
def mqtt_write_data (h : Option MqttHandle) (status : Int) :
    Int × Option MqttHandle × List LibCall :=
  match h with
  | none => (-EINVAL, none, [])
  | some h0 =>
    if status ≠ MOSQ_ERR_SUCCESS then
      (if mqtt_needs_to_reconnect status then -ENOTCONN else -ENOTRECOVERABLE,
       some h0, [LibCall.mosqLoopWrite])
    else (0, some h0, [LibCall.mosqLoopWrite])

/-- `mqtt_misc_loop` from src/mqtt.c; `status` is what
`mosquitto_loop_misc` would return. -/
def mqtt_misc_loop (h : Option MqttHandle) (status : Int) :
    Int × Option MqttHandle × List LibCall :=
  match h with
  | none => (-EINVAL, none, [])
  | some h0 =>
    if status ≠ MOSQ_ERR_SUCCESS then
      (if mqtt_needs_to_reconnect status then -ENOTCONN else -ENOTRECOVERABLE,
       some h0, [LibCall.mosqLoopMisc])
    else (0, some h0, [LibCall.mosqLoopMisc])

/-- `mqtt_fd` from src/mqtt.c; `sockFd` is what `mosquitto_socket` would
return. -/
def mqtt_fd (h : Option MqttHandle) (sockFd : Int) :
    Int × Option MqttHandle × List LibCall :=
  match h with
  | none => (-EINVAL, none, [])
  | some h0 => (sockFd, some h0, [LibCall.mosqSocket])

/-- `mqtt_send_event` from src/mqtt.c; `status` is what
`mosquitto_publish` would return; `now` is `time(NULL)`. -/
def mqtt_send_event (h : Option MqttHandle) (status : Int) (now : Int) :
    Int × Option MqttHandle × List LibCall :=
  match h with
  | none => (-EINVAL, none, [])
  | some h0 =>
    if status ≠ 0 then
      (if mqtt_needs_to_reconnect status then -ENOTCONN else -ENOTRECOVERABLE,
       some h0, [LibCall.mosqPublish])
    else
      (0, some { h0 with mqtt_events_send := h0.mqtt_events_send + 1,
                         mqtt_last_event := now },
       [LibCall.mosqPublish])

/-- `mqtt_stats_t` from include/mqtt.h. -/
structure MqttStats where
  events_send : Nat
  last_event : Int
deriving Repr, DecidableEq

/-- `mqtt_dump_stats` from src/mqtt.c: an all-zero snapshot for a NULL
handle, otherwise the handle's counters. -/
def mqtt_dump_stats (h : Option MqttHandle) : MqttStats :=
  match h with
  | none => { events_send := 0, last_event := 0 }
  | some h0 => { events_send := h0.mqtt_events_send,
                 last_event := h0.mqtt_last_event }

/-! ## `BUFFER_ADD` byte-level bookkeeping

`BUFFER_ADD` (src/main.c lines 115–127, src/gpsd.c lines 148–160) appends
one `snprintf`-formatted chunk: with `status` the length `snprintf`
reports for the full (untruncated) formatted text, the macro aborts the
whole payload (freeing the buffer and returning NULL / `-ENOMEM`) when
`status < 1` or `status >= buffer_size - offset`, and otherwise advances
`offset` by `status`.  A payload build is a fold of these steps over the
chunk lengths; `none` is the aborted (freed, absent) outcome. -/

def bufferAddStep (buffer_size : Nat) (acc : Option Nat) (status : Int) : Option Nat :=
  match acc with
  | none => none
  | some offset =>
    if status < 1 then none
    else if buffer_size - offset ≤ status.toNat then none
    else some (offset + status.toNat)

/-- `INITIAL_BUFFER_SIZE` from src/main.c and src/gpsd.c. -/
def INITIAL_BUFFER_SIZE : Nat := 256

/-- Rendering a payload whose successive `snprintf` chunk lengths are
`chunks` into a buffer of `buffer_size` bytes. -/
def renderBuffer (buffer_size : Nat) (chunks : List Int) : Option Nat :=
  chunks.foldl (bufferAddStep buffer_size) (some 0)

/-- Every chunk, in sequence from write position `offset`, formats to at
least one byte and fits strictly inside the remaining buffer space. -/
def chunksFit (buffer_size : Nat) : Nat → List Int → Prop
  | _, [] => True
  | offset, c :: cs =>
      1 ≤ c ∧ c.toNat < buffer_size - offset ∧ chunksFit buffer_size (offset + c.toNat) cs

instance chunksFitDecidable (bs : Nat) : ∀ (off : Nat) (cs : List Int),
    Decidable (chunksFit bs off cs)
  | _, [] => isTrue trivial
  | off, c :: cs =>
      letI : Decidable (chunksFit bs (off + c.toNat) cs) := chunksFitDecidable bs (off + c.toNat) cs
      decidable_of_iff (1 ≤ c ∧ c.toNat < bs - off ∧ chunksFit bs (off + c.toNat) cs) Iff.rfl

/-! ## Derived runs and spec-side definitions -/

/-- A run of consecutive failing reconnect attempts: attempt `k + 1` is
made at the first time the throttle in `reconnect_mqtt` allows it (one
second after the scheduled attempt time) and `mosquitto_reconnect` fails
with `MOSQ_ERR_UNKNOWN`. -/
def failRun (st : RunState) : Nat → RunState
  | 0 => st
  | k + 1 =>
      (reconnect_mqtt (failRun st k) ((failRun st k).next_reconnect_attempt + 1)
        MOSQ_ERR_UNKNOWN).2

/-- The delay value before the `k`-th failing attempt of a run that starts
from a freshly reset delay of 1. -/
def delaySeq : Nat → Nat
  | 0 => 1
  | k + 1 => nextDelayUpdate (delaySeq k)

/-- Modelled from the spec: "sum of per-satellite signal strengths (only
for satellites flagged used, strength above the library invalid sentinel)
divided by satellites-used count (0 if none used)", stated over a list of
satellites with the `create_event_payload` validity test `0 ≤ ss`.
Written from the spec's words, for comparison with the source-derived
`payload_snr_avg`. -/
def specAvgSnr (sats : List Satellite) (sats_used : Int) : ℚ :=
  if 0 < sats_used then
    (((sats.filter fun s => s.used && decide ((0 : ℚ) ≤ s.ss)).map Satellite.ss).sum)
      / (sats_used : ℚ)
  else 0

/-! ## Concrete example data -/

/-- An all-zero `gps_data_t`. -/
def dataZero : GpsData :=
  { set := GpsSetFlags.zero,
    fix := { mode := 0, time := ⟨0, 0⟩, qErr := 0 },
    satellites_used := 0, satellites_visible := 0, tdop := 0,
    skyview := fun _ => Satellite.zero,
    toff_clock := ⟨0, 0⟩, toff_real := ⟨0, 0⟩,
    pps_clock := ⟨0, 0⟩, pps_real := ⟨0, 0⟩,
    qErr := 0,
    osc := { running := false, reference := false, disciplined := false, delta := 0 } }

/-- A freshly initialized GPSD handle holding zeroed data. -/
def handleZero : GpsdHandle :=
  { gpsd := dataZero, gps_fd := 3, toff_diff := ⟨0, 0⟩, pps_diff := ⟨0, 0⟩,
    gpsd_events_recv := 0, gpsd_events_send := 0, gpsd_last_event := 0 }

/-- Decoded data that carries a GPSD protocol-level error report
(`ERROR_SET`). -/
def dataError : GpsData :=
  { dataZero with set := { GpsSetFlags.zero with errorSet := true } }

/-- The spec's average-SNR example: satellites
`[(used, ss=40), (used, ss=20), (unused, ss=99)]`, `satellites_used = 2`,
`satellites_visible = 3`, the rest of the skyview array zeroed. -/
def dataSnrExample : GpsData :=
  { dataZero with
      satellites_used := 2, satellites_visible := 3,
      fix := { mode := 3, time := ⟨100, 0⟩, qErr := 0 },
      skyview := fun i =>
        [({ used := true, ss := 40, svid := 1, gnssid := 0 } : Satellite),
         { used := true, ss := 20, svid := 2, gnssid := 0 },
         { used := false, ss := 99, svid := 3, gnssid := 0 }].getD i Satellite.zero }

/-- A valid 3D fix carrying `toff` and `pps` data, for exercising the main
loop's GPS branch. -/
def dataValidFix : GpsData :=
  { dataSnrExample with
      set := { GpsSetFlags.zero with packetSet := true, toffSet := true, ppsSet := true },
      toff_clock := ⟨100, 500000000⟩, toff_real := ⟨100, 100000000⟩,
      pps_clock := ⟨100, 100000000⟩, pps_real := ⟨100, 500000000⟩ }

/-! ## Theorems -/

/-- C1: `gps_stats_changed` returns true exactly when at least one of
satellites-used, satellites-visible, tdop, the computed average SNR, or
the computed per-constellation seen-histogram of the new fix differs from
the stored snapshot, and false when all five are equal — for every stored
snapshot and every new fix. -/
theorem C1_gps_stats_changed_iff (st : RunState) (data : GpsData) :
    (gps_stats_changed st data).1 = true ↔
      ¬ (st.sats_used = data.satellites_used ∧
         st.sats_visible = data.satellites_visible ∧
         st.tdop = data.tdop ∧
         st.avg_snr = detector_snr_avg data ∧
         st.sats_seen = detectorSeenHist data) := by
  unfold gps_stats_changed
  dsimp only
  split_ifs with h <;> simp [h]

/-- C3 (demonstrating the off-by-one the spec flags as a latent bug): the
satellites-seen/SNR loops bound the skyview index by
`i <= satellites_visible`, so with `satellites_visible` equal to the
array's declared capacity (`MAXCHANNELS`, 140 in the targeted gpsd) the
loop reads index 140, which is not strictly below the capacity: the
claimed in-bounds property fails at this input. -/
theorem C3_skyview_read_at_capacity :
    140 ∈ skyviewIndicesRead 140 ∧ ¬ (140 < 140) ∧
    ∀ sv : Nat, sv ∈ skyviewIndicesRead (sv : Int) := by
  refine ⟨by decide, by decide, fun sv => ?_⟩
  unfold skyviewIndicesRead
  rw [if_neg (by omega)]
  simp

/-- C10: every public session operation taking a handle returns `-EINVAL`
on a NULL handle, performs no library call, and yields no handle state;
the stats-dump operations instead return an all-zero statistics
snapshot. -/
theorem C10_null_handles :
    (∀ o s, gpsd_connect none o s = (-EINVAL, none, [])) ∧
    gpsd_disconnect none = (-EINVAL, none, []) ∧
    gpsd_fd none = (-EINVAL, none, []) ∧
    (∀ r d n, gpsd_read_data none r d n = (-EINVAL, none, none, [])) ∧
    (∀ s, mqtt_connect none s = (-EINVAL, none, [])) ∧
    (∀ s, mqtt_disconnect none s = (-EINVAL, none, [])) ∧
    (∀ s, mqtt_read_data none s = (-EINVAL, none, [])) ∧
    (∀ s, mqtt_write_data none s = (-EINVAL, none, [])) ∧
    (∀ s, mqtt_misc_loop none s = (-EINVAL, none, [])) ∧
    (∀ s, mqtt_fd none s = (-EINVAL, none, [])) ∧
    (∀ s n, mqtt_send_event none s n = (-EINVAL, none, [])) ∧
    gpsd_dump_stats none = { events_recv := 0, events_send := 0, last_event := 0 } ∧
    mqtt_dump_stats none = { events_send := 0, last_event := 0 } :=
  ⟨fun _ _ => rfl, rfl, rfl, fun _ _ _ => rfl, fun _ => rfl, fun _ => rfl,
   fun _ => rfl, fun _ => rfl, fun _ => rfl, fun _ => rfl, fun _ _ => rfl,
   rfl, rfl⟩

/-- C9: `TS_SUB` followed by `TS_NORM` computes the exact signed
difference of two valid instants (nanosecond components in
`[0, 10^9)`): the value identity holds, the nanosecond component stays
strictly below one second in magnitude, seconds and nanoseconds are never
of opposite sign, and the two 0.4-second examples convert exactly. -/
theorem C9_ts_sub_norm (ts1 ts2 : Timespec)
    (h1 : 0 ≤ ts1.tv_nsec) (h2 : ts1.tv_nsec < NS_IN_SEC)
    (h3 : 0 ≤ ts2.tv_nsec) (h4 : ts2.tv_nsec < NS_IN_SEC) :
    ((TS_SUB ts1 ts2).tv_sec * NS_IN_SEC + (TS_SUB ts1 ts2).tv_nsec
        = (ts1.tv_sec - ts2.tv_sec) * NS_IN_SEC + (ts1.tv_nsec - ts2.tv_nsec)) ∧
    |(TS_SUB ts1 ts2).tv_nsec| < NS_IN_SEC ∧
    ((0 ≤ (TS_SUB ts1 ts2).tv_sec ∧ 0 ≤ (TS_SUB ts1 ts2).tv_nsec) ∨
     ((TS_SUB ts1 ts2).tv_sec ≤ 0 ∧ (TS_SUB ts1 ts2).tv_nsec ≤ 0)) ∧
    TSTONS (TS_SUB ⟨100, 500000000⟩ ⟨100, 100000000⟩) = 2 / 5 ∧
    TSTONS (TS_SUB ⟨100, 100000000⟩ ⟨100, 500000000⟩) = -(2 / 5) := by
  refine ⟨?_, ?_, ?_,
    by norm_num [TSTONS, TS_SUB, TS_NORM, NS_IN_SEC],
    by norm_num [TSTONS, TS_SUB, TS_NORM, NS_IN_SEC]⟩ <;>
  · unfold TS_SUB TS_NORM NS_IN_SEC at *
    split_ifs <;> simp_all [abs_lt] <;> omega

/-- C9 witness: the general part of `C9_ts_sub_norm` applied to the
spec's concrete 0.4-second example operands. -/
theorem C9_ts_sub_norm_witness :
    (0 : Int) ≤ (⟨100, 500000000⟩ : Timespec).tv_nsec ∧
    (⟨100, 500000000⟩ : Timespec).tv_nsec < NS_IN_SEC ∧
    (0 : Int) ≤ (⟨100, 100000000⟩ : Timespec).tv_nsec ∧
    (⟨100, 100000000⟩ : Timespec).tv_nsec < NS_IN_SEC ∧
    |(TS_SUB ⟨100, 500000000⟩ ⟨100, 100000000⟩).tv_nsec| < NS_IN_SEC :=
  ⟨by decide, by decide, by decide, by decide,
   (C9_ts_sub_norm ⟨100, 500000000⟩ ⟨100, 100000000⟩
     (by decide) (by decide) (by decide) (by decide)).2.1⟩

theorem nextDelayUpdate_min_pow (k : Nat) :
    nextDelayUpdate (min (2 ^ k) 32) = min (2 ^ (k + 1)) 32 := by
  by_cases h : (2 : Nat) ^ k < 32
  · have hk5 : k < 5 := by
      have h5 : (2 : Nat) ^ k < 2 ^ 5 := by norm_num at h ⊢; exact h
      exact (Nat.pow_lt_pow_iff_right (by norm_num)).mp h5
    have h2 : (2 : Nat) ^ (k + 1) ≤ 32 := by
      calc (2 : Nat) ^ (k + 1) ≤ 2 ^ 5 := Nat.pow_le_pow_right (by norm_num) (by omega)
        _ = 32 := by norm_num
    have he : (2 : Nat) ^ k * 2 ^ 1 = 2 ^ (k + 1) := by
      rw [pow_one]; exact (pow_succ 2 k).symm
    rw [min_eq_left (le_of_lt h)]
    unfold nextDelayUpdate MAX_RECONNECT_DELAY_VALUE
    rw [if_pos h, Nat.shiftLeft_eq, he, min_eq_left h2,
        Nat.mod_eq_of_lt (lt_of_le_of_lt h2 (by norm_num))]
  · have hmin : min ((2 : Nat) ^ k) 32 = 32 := min_eq_right (by omega)
    rw [hmin]
    unfold nextDelayUpdate MAX_RECONNECT_DELAY_VALUE
    rw [if_neg (by omega)]
    have h32 : 32 ≤ (2 : Nat) ^ (k + 1) := by
      rw [pow_succ]; omega
    rw [min_eq_right h32]

theorem delaySeq_eq_min (k : Nat) : delaySeq k = min (2 ^ k) 32 := by
  induction k with
  | zero => decide
  | succ k ih => rw [delaySeq, ih, nextDelayUpdate_min_pow]

theorem failRun_succ (st : RunState) (k : Nat) :
    failRun st (k + 1)
      = { failRun st k with
            reconnect_mosq := true,
            next_reconnect_attempt :=
              (failRun st k).next_reconnect_attempt + 1
                + ((failRun st k).next_delay_value : Int),
            next_delay_value := nextDelayUpdate (failRun st k).next_delay_value } := by
  simp only [failRun]
  unfold reconnect_mqtt
  rw [if_neg (by rintro ⟨_, hge⟩; omega), if_pos (by decide)]

theorem failRun_delay (st : RunState) (h : st.next_delay_value = 1) (k : Nat) :
    (failRun st k).next_delay_value = delaySeq k := by
  induction k with
  | zero => simpa [failRun, delaySeq] using h
  | succ k ih => rw [failRun_succ]; simp only [delaySeq]; rw [ih]

/-- C2 counterexample: the claim fails on the run of failures before the
first successful reconnect.  `run_state` is zero-initialized, so at the
first attempted (and failing) reconnect — reached with `reconnect_mosq`
set by the disconnect callback and `next_delay_value` still 0 — the delay
used is 0, not 1, and doubling leaves it 0: after five further failures
the delay value is still 0. -/
theorem C2_initial_run_delay_zero :
    (reconnect_mqtt { initRunState with reconnect_mosq := true } 100
        MOSQ_ERR_UNKNOWN).2.next_reconnect_attempt = 100 ∧
    (reconnect_mqtt { initRunState with reconnect_mosq := true } 100
        MOSQ_ERR_UNKNOWN).2.next_delay_value = 0 ∧
    (failRun { initRunState with reconnect_mosq := true } 5).next_delay_value = 0 ∧
    (0 : Nat) ≠ 1 := by
  refine ⟨by decide, by decide, by decide, by decide⟩

/-- C2 (amended): after any successful unthrottled reconnect attempt,
`reconnect_mqtt` returns 0, clears the reconnect marker, unsets the
scheduled-attempt time and resets the delay value to 1; from that state,
the `k`-th consecutive failing attempt finds delay value
`min (2 ^ k) 32` — the sequence 1, 2, 4, 8, 16, 32, 32, …, doubling up to
the cap and never exceeding 32 — and reschedules itself that many seconds
ahead.  (Before the first success the zero-initialized delay value is 0
and stays 0, which is what the original claim misses.) -/
theorem C2_backoff_amended (st0 : RunState) (now0 : Int) (k : Nat)
    (h : ¬ (st0.reconnect_mosq = true ∧ st0.next_reconnect_attempt ≥ now0)) :
    (reconnect_mqtt st0 now0 MOSQ_ERR_SUCCESS).1 = 0 ∧
    (reconnect_mqtt st0 now0 MOSQ_ERR_SUCCESS).2.reconnect_mosq = false ∧
    (reconnect_mqtt st0 now0 MOSQ_ERR_SUCCESS).2.next_reconnect_attempt = -1 ∧
    (reconnect_mqtt st0 now0 MOSQ_ERR_SUCCESS).2.next_delay_value = 1 ∧
    (failRun (reconnect_mqtt st0 now0 MOSQ_ERR_SUCCESS).2 k).next_delay_value
      = min (2 ^ k) 32 ∧
    (failRun (reconnect_mqtt st0 now0 MOSQ_ERR_SUCCESS).2 k).next_delay_value ≤ 32 ∧
    (failRun (reconnect_mqtt st0 now0 MOSQ_ERR_SUCCESS).2 (k + 1)).next_reconnect_attempt
      = (failRun (reconnect_mqtt st0 now0 MOSQ_ERR_SUCCESS).2 k).next_reconnect_attempt
          + 1 + ((min (2 ^ k) 32 : Nat) : Int) := by
  have hsucc : reconnect_mqtt st0 now0 MOSQ_ERR_SUCCESS
      = (0, { st0 with reconnect_mosq := false, next_reconnect_attempt := -1,
                       next_delay_value := 1 }) := by
    unfold reconnect_mqtt
    rw [if_neg h, if_neg (by decide)]
  have hδ : (reconnect_mqtt st0 now0 MOSQ_ERR_SUCCESS).2.next_delay_value = 1 := by
    rw [hsucc]
  have hrun : (failRun (reconnect_mqtt st0 now0 MOSQ_ERR_SUCCESS).2 k).next_delay_value
      = min (2 ^ k) 32 := by
    rw [failRun_delay _ hδ k, delaySeq_eq_min]
  refine ⟨by rw [hsucc], by rw [hsucc], by rw [hsucc], hδ, hrun, ?_, ?_⟩
  · rw [hrun]; exact min_le_right _ _
  · rw [failRun_succ]
    simp only []
    rw [hrun]

/-- C2 witness: `C2_backoff_amended` applied to the zero-initialized run
state at time 100, after 6 consecutive failures (the delay value has hit
the cap). -/
theorem C2_backoff_amended_witness :
    ¬ (initRunState.reconnect_mosq = true ∧ initRunState.next_reconnect_attempt ≥ 100) ∧
    (failRun (reconnect_mqtt initRunState 100 MOSQ_ERR_SUCCESS).2 6).next_delay_value
      = min (2 ^ 6) 32 :=
  ⟨by decide, (C2_backoff_amended initRunState 100 6 (by decide)).2.2.2.2.1⟩

/-- C4 counterexample: when a read succeeds (`gps_read` returns 1) but the
decoded data carries `ERROR_SET`, `gpsd_read_data` returns `-EIO` — an
error — not the no-event-no-error outcome the claim states. -/
theorem C4_error_set_is_an_error :
    (gpsd_read_data (some handleZero) 1 dataError 5).1 = - EIO ∧
    (gpsd_read_data (some handleZero) 1 dataError 5).2.1 = none ∧
    - EIO ≠ (0 : Int) := by
  refine ⟨rfl, rfl, by decide⟩

/-- C4 (amended): when a read from GPSD succeeds but the decoded data
carries a protocol-level error report (`ERROR_SET`), `gpsd_read_data`
logs it and returns `-EIO` with no event — an error code distinct from
the transport-failure code `-ENOTCONN` that signals a reconnect is
needed — and updates no statistics. -/
theorem C4_error_set_amended (h0 : GpsdHandle) (readStatus : Int) (d : GpsData) (now : Int)
    (hr : 0 < readStatus) (he : d.set.errorSet = true) :
    gpsd_read_data (some h0) readStatus d now
      = (- EIO, none, some { h0 with gpsd := d }, [LibCall.gpsRead]) ∧
    - EIO ≠ -ENOTCONN ∧ (- EIO : Int) < 0 := by
  refine ⟨?_, by decide, by decide⟩
  unfold gpsd_read_data
  dsimp only
  rw [if_neg (by omega), if_neg (by omega), if_pos he]

/-- C4 witness: `C4_error_set_amended` at the concrete zeroed handle and
error-carrying data. -/
theorem C4_error_set_amended_witness :
    (0 : Int) < 1 ∧ dataError.set.errorSet = true ∧
    gpsd_read_data (some handleZero) 1 dataError 5
      = (- EIO, none, some { handleZero with gpsd := dataError }, [LibCall.gpsRead]) :=
  ⟨by decide, rfl, (C4_error_set_amended handleZero 1 dataError 5 (by decide) rfl).1⟩

/-- C5: the main loop's GPS branch emits an event payload only for fixes
with mode better than no-fix and at least one satellite used; every other
fix produces no payload; and whether or not the fix is valid, the
time-offset and PPS-offset deltas are updated whenever the corresponding
flag is present (the update happens before the fix-validity test). -/
theorem C5_payload_gating (st : RunState) (d : GpsData) :
    ((process_gps_data st d).2 ≠ none →
        d.fix.mode > MODE_NO_FIX ∧ d.satellites_used > 0) ∧
    (¬ (d.fix.mode > MODE_NO_FIX ∧ d.satellites_used > 0) →
        (process_gps_data st d).2 = none) ∧
    (d.set.errorSet = false → d.set.toffSet = true →
        (process_gps_data st d).1.toff_diff = TS_SUB d.toff_clock d.toff_real) ∧
    (d.set.errorSet = false → d.set.ppsSet = true →
        (process_gps_data st d).1.pps_diff = TS_SUB d.pps_clock d.pps_real) := by
  unfold process_gps_data gps_stats_changed
  dsimp only
  split_ifs <;> simp_all

/-- C5 witness: `C5_payload_gating` at concrete inputs — a valid 3D fix
carrying toff/pps data has its deltas recorded, and the all-zero (no-fix)
data emits nothing. -/
theorem C5_payload_gating_witness :
    dataValidFix.set.errorSet = false ∧ dataValidFix.set.toffSet = true ∧
    dataValidFix.set.ppsSet = true ∧
    (process_gps_data initRunState dataValidFix).1.toff_diff
      = TS_SUB dataValidFix.toff_clock dataValidFix.toff_real ∧
    (process_gps_data initRunState dataValidFix).1.pps_diff
      = TS_SUB dataValidFix.pps_clock dataValidFix.pps_real ∧
    ¬ (dataZero.fix.mode > MODE_NO_FIX ∧ dataZero.satellites_used > 0) ∧
    (process_gps_data initRunState dataZero).2 = none :=
  ⟨rfl, rfl, rfl,
   (C5_payload_gating initRunState dataValidFix).2.2.1 rfl rfl,
   (C5_payload_gating initRunState dataValidFix).2.2.2 rfl rfl,
   by decide,
   (C5_payload_gating initRunState dataZero).2.1 (by decide)⟩

theorem payloadScan_fst (d : GpsData) : ∀ (l : List Nat) (acc : ℚ × List Nat),
    (l.foldl (payloadScanStep d) acc).1
      = acc.1 + (((l.map d.skyview).filter
            fun s => s.used && decide ((0 : ℚ) ≤ s.ss)).map Satellite.ss).sum := by
  intro l
  induction l with
  | nil => intro acc; simp
  | cons i t ih =>
    intro acc
    rw [List.foldl_cons, ih]
    simp only [List.map_cons, List.filter_cons]
    by_cases hu : (d.skyview i).used <;>
      by_cases hs : (0 : ℚ) ≤ (d.skyview i).ss <;>
        (simp [payloadScanStep, hu, hs, ge_iff_le]; try ring)

theorem detectorScan_fst (d : GpsData) : ∀ (l : List Nat) (acc : ℚ × List Nat),
    (l.foldl (detectorScanStep d) acc).1
      = acc.1 + (((l.map d.skyview).filter
            fun s => s.used && decide ((1 : ℚ) < s.ss)).map Satellite.ss).sum := by
  intro l
  induction l with
  | nil => intro acc; simp
  | cons i t ih =>
    intro acc
    rw [List.foldl_cons, ih]
    simp only [List.map_cons, List.filter_cons]
    by_cases hu : (d.skyview i).used <;>
      by_cases hs : (1 : ℚ) < (d.skyview i).ss <;>
        (simp [detectorScanStep, hu, hs]; try ring)

/-- C6: the average SNR of `create_event_payload` is the sum of the signal
strengths of exactly those satellites examined by the loop that are
flagged used and have valid strength, divided by the satellites-used
count, and 0 when no satellites are used (this is `specAvgSnr`, written
from the spec's words); on the spec's example — strengths
[(used, 40), (used, 20), (unused, 99)] with `satellites_used = 2` — both
the payload computation and the change detector's yield exactly 30. -/
theorem C6_avg_snr (d : GpsData) :
    payload_snr_avg d
      = specAvgSnr ((skyviewIndicesRead d.satellites_visible).map d.skyview)
          d.satellites_used ∧
    payload_snr_avg dataSnrExample = 30 ∧
    detector_snr_avg dataSnrExample = 30 := by
  have hidx : skyviewIndicesRead dataSnrExample.satellites_visible = [0, 1, 2, 3] := by
    decide
  refine ⟨?_, ?_, ?_⟩
  · unfold payload_snr_avg specAvgSnr payloadScan
    rw [payloadScan_fst]
    simp only [gt_iff_lt]
    split_ifs <;> simp
  · have hp : (payloadScan dataSnrExample).1 = 60 := by
      rw [payloadScan, hidx, payloadScan_fst]
      norm_num [dataSnrExample, dataZero, Satellite.zero, List.getD]
    rw [payload_snr_avg, if_pos (by norm_num [dataSnrExample]), hp]
    norm_num [dataSnrExample]
  · have hd : (detectorScan dataSnrExample).1 = 60 := by
      rw [detectorScan, hidx, detectorScan_fst]
      norm_num [dataSnrExample, dataZero, Satellite.zero, List.getD]
    rw [detector_snr_avg, if_pos (by norm_num [dataSnrExample]), hd]
    norm_num [dataSnrExample]

theorem mem_satsFields (seen : List Nat) (g c : Nat) :
    JsonField.sats g c ∈ satsFields seen ↔ (g < GNSSID_CNT ∧ c = seen.getD g 0 ∧ 0 < c) := by
  simp only [satsFields, List.mem_filterMap, List.mem_range,
    Option.ite_none_right_eq_some, Option.some.injEq]
  constructor
  · rintro ⟨i, hi, hpos, heq⟩
    obtain ⟨hg, hc⟩ := JsonField.sats.inj heq
    subst hg
    exact ⟨hi, hc.symm, hc ▸ hpos⟩
  · rintro ⟨hg, hc, hpos⟩
    exact ⟨g, hg, by omega, by rw [hc]⟩

/-- C7: the rendered payload always contains the time, sats_used,
sats_visible, tdop, avg_snr, toff and pps fields; it contains qErr exactly
when the clock-quality-error value is non-zero; it contains the osc.pps,
osc.gps and osc.delta fields exactly when the receiver reports a running
oscillator; and it contains a sats field for exactly those constellations
whose seen-count is positive. -/
theorem C7_payload_fields (h : GpsdHandle) :
    JsonField.time h.gpsd.fix.time ∈ create_event_payload h ∧
    JsonField.sats_used h.gpsd.satellites_used ∈ create_event_payload h ∧
    JsonField.sats_visible h.gpsd.satellites_visible ∈ create_event_payload h ∧
    JsonField.tdop h.gpsd.tdop ∈ create_event_payload h ∧
    JsonField.avg_snr (payload_snr_avg h.gpsd) ∈ create_event_payload h ∧
    JsonField.toff (TSTONS h.toff_diff) ∈ create_event_payload h ∧
    JsonField.pps (TSTONS h.pps_diff) ∈ create_event_payload h ∧
    (JsonField.qErr h.gpsd.qErr ∈ create_event_payload h ↔ h.gpsd.qErr ≠ 0) ∧
    ((∃ b, JsonField.osc_pps b ∈ create_event_payload h) ↔ h.gpsd.osc.running = true) ∧
    ((∃ b, JsonField.osc_gps b ∈ create_event_payload h) ↔ h.gpsd.osc.running = true) ∧
    ((∃ v, JsonField.osc_delta v ∈ create_event_payload h) ↔ h.gpsd.osc.running = true) ∧
    (∀ g c, JsonField.sats g c ∈ create_event_payload h ↔
        (g < GNSSID_CNT ∧ c = (payloadSeenHist h.gpsd).getD g 0 ∧ 0 < c)) := by
  unfold create_event_payload
  refine ⟨by simp, by simp, by simp, by simp, by simp, by simp, by simp, ?_, ?_, ?_, ?_, ?_⟩
  · by_cases hq : h.gpsd.qErr = 0 <;>
      simp [hq, satsFields, List.mem_filterMap, Option.ite_none_right_eq_some]
  · by_cases ho : h.gpsd.osc.running <;>
      simp [ho, satsFields, List.mem_filterMap, Option.ite_none_right_eq_some]
  · by_cases ho : h.gpsd.osc.running <;>
      simp [ho, satsFields, List.mem_filterMap, Option.ite_none_right_eq_some]
  · by_cases ho : h.gpsd.osc.running <;>
      simp [ho, satsFields, List.mem_filterMap, Option.ite_none_right_eq_some]
  · intro g c
    by_cases hq : h.gpsd.qErr ≠ 0 <;> by_cases ho : h.gpsd.osc.running <;>
      simp [hq, ho, mem_satsFields]

theorem foldl_bufferAddStep_none (bs : Nat) (cs : List Int) :
    cs.foldl (bufferAddStep bs) none = none := by
  induction cs with
  | nil => rfl
  | cons c t ih => rw [List.foldl_cons]; exact ih

theorem render_none_iff (bs : Nat) : ∀ (cs : List Int) (off : Nat),
    cs.foldl (bufferAddStep bs) (some off) = none ↔ ¬ chunksFit bs off cs := by
  intro cs
  induction cs with
  | nil => intro off; simp [chunksFit]
  | cons c t ih =>
    intro off
    rw [List.foldl_cons]
    by_cases h1 : c < 1
    · rw [show bufferAddStep bs (some off) c = none by simp [bufferAddStep, h1],
          foldl_bufferAddStep_none]
      constructor
      · intro _ hfit; exact absurd hfit.1 (by omega)
      · intro _; rfl
    · by_cases h2 : bs - off ≤ c.toNat
      · rw [show bufferAddStep bs (some off) c = none by simp [bufferAddStep, h1, h2],
            foldl_bufferAddStep_none]
        constructor
        · intro _ hfit; exact absurd hfit.2.1 (by omega)
        · intro _; rfl
      · rw [show bufferAddStep bs (some off) c = some (off + c.toNat) by
            simp [bufferAddStep, h1, h2]]
        have hfit : chunksFit bs off (c :: t) ↔ chunksFit bs (off + c.toNat) t := by
          constructor
          · exact fun hf => hf.2.2
          · exact fun hf => ⟨by omega, by omega, hf⟩
        rw [ih (off + c.toNat), hfit]

theorem render_some (bs : Nat) : ∀ (cs : List Int) (off off2 : Nat),
    cs.foldl (bufferAddStep bs) (some off) = some off2 →
    off2 = off + (cs.map Int.toNat).sum ∧ (cs ≠ [] → off2 < bs) := by
  intro cs
  induction cs with
  | nil =>
    intro off off2 hh
    obtain rfl : off = off2 := by simpa using hh
    exact ⟨by simp, fun hne => absurd rfl hne⟩
  | cons c t ih =>
    intro off off2 hh
    rw [List.foldl_cons] at hh
    by_cases h1 : c < 1
    · rw [show bufferAddStep bs (some off) c = none by simp [bufferAddStep, h1],
          foldl_bufferAddStep_none] at hh
      exact absurd hh (by simp)
    · by_cases h2 : bs - off ≤ c.toNat
      · rw [show bufferAddStep bs (some off) c = none by simp [bufferAddStep, h1, h2],
            foldl_bufferAddStep_none] at hh
        exact absurd hh (by simp)
      · rw [show bufferAddStep bs (some off) c = some (off + c.toNat) by
            simp [bufferAddStep, h1, h2]] at hh
        obtain ⟨ha, hb⟩ := ih (off + c.toNat) off2 hh
        constructor
        · simp only [List.map_cons, List.sum_cons]; omega
        · intro _
          by_cases ht : t = []
          · subst ht
            simp only [List.foldl_nil, Option.some.injEq] at hh
            omega
          · exact hb ht

/-- C8: if at any `BUFFER_ADD` step the remaining buffer space is
insufficient for the formatted chunk (or formatting fails), the whole
payload build yields absent (`none` — the C code frees the buffer and
returns NULL / `-ENOMEM`); when a payload is returned, every chunk fit in
full (the final offset is the exact untruncated total and stays inside
the buffer), so a truncated payload is never returned. -/
theorem C8_buffer_abort (bs : Nat) (cs : List Int) :
    (renderBuffer bs cs = none ↔ ¬ chunksFit bs 0 cs) ∧
    (∀ off, renderBuffer bs cs = some off →
        off = (cs.map Int.toNat).sum ∧ (cs ≠ [] → off < bs)) := by
  constructor
  · exact render_none_iff bs cs 0
  · intro off hoff
    obtain ⟨h1, h2⟩ := render_some bs cs 0 off hoff
    exact ⟨by simpa using h1, h2⟩

/-- C8 witness: `C8_buffer_abort` applied to a buffer of 256 bytes and
two chunks of 10 and 20 bytes. -/
theorem C8_buffer_abort_witness :
    renderBuffer 256 [10, 20] = some 30 ∧
    (30 : Nat) = ([(10 : Int), 20].map Int.toNat).sum ∧
    ([(10 : Int), 20] ≠ [] → (30 : Nat) < 256) :=
  ⟨by decide, ((C8_buffer_abort 256 [10, 20]).2 30 (by decide)).1,
   ((C8_buffer_abort 256 [10, 20]).2 30 (by decide)).2⟩

end Gpsstats
